import Mathlib

/-!
# Verification of the flight price monitor (`flight_monitor.py`)

A shallow embedding of the matcher and alert-decision logic of the
periodic flight-price monitor, together with proofs of the specified
properties.

Conventions of the embedding:
* Python `datetime.fromisoformat` is abstracted as a parameter
  `parse : String → Option Int` returning seconds since some epoch
  (`none` models the `ValueError` that the source catches); every
  theorem quantifies over `parse`.
* Python floats in the percent computation are modelled by exact
  rationals `ℚ`.
* JSON dictionaries read from `prices.json` are modelled by `RawRecord`,
  whose fields are `Option (Option _)`: the outer layer is key presence
  (`prev["k"]` raises `KeyError` when absent, modelled by `Except`),
  the inner layer is a JSON `null`.
* The price store is an association list keyed by the tracking key;
  dictionary assignment replaces in place or appends.
* `str.lower()` is modelled on ASCII letters by `lowerStr`.
-/

namespace FlightMonitor

/-- A candidate flight as produced by the flight source
(`stable_mock_flights` / `parse_list_like`): both always populate the
`airline`, `flightNo`, `depart` and `price` fields (missing upstream
values become empty strings). `arrive` and `duration` are never read by
the monitor and are omitted. -/
structure Flight where
  airline : String
  flightNo : String
  depart : String
  price : Int
deriving DecidableEq, Repr

/-- A well-formed tracking record, the value shape the monitor itself
writes to the store: the four fields of `store[price_key]`. -/
structure Record where
  last_price : Option Int
  last_notified_price : Option Int
  last_notified_dir : Option String
  last_depart : Option String
deriving DecidableEq, Repr

/-- The default record used by `store.get(price_key, {...None...})`. -/
def Record.empty : Record := ⟨none, none, none, none⟩

/-- A raw JSON dictionary stored under a tracking key. Outer `Option`:
is the key present in the dict at all; inner `Option`: JSON null. -/
structure RawRecord where
  last_price : Option (Option Int)
  last_notified_price : Option (Option Int)
  last_notified_dir : Option (Option String)
  last_depart : Option (Option String)
deriving DecidableEq, Repr

/-- The dictionary the monitor writes back: all four keys present. -/
def Record.toRaw (r : Record) : RawRecord :=
  ⟨some r.last_price, some r.last_notified_price,
   some r.last_notified_dir, some r.last_depart⟩

/-- Lines 203–204 of `flight_monitor.py`:
`last=prev["last_price"]; last_notified=prev["last_notified_price"];
last_dir=prev.get("last_notified_dir"); last_depart=prev["last_depart"]`.
Square-bracket access on a missing key raises `KeyError` (`Except.error`);
only `last_notified_dir` is read with `.get`, which defaults to `None`. -/
def readPrev (r : RawRecord) : Except Unit Record :=
  match r.last_price with
  | none => .error ()
  | some lp =>
    match r.last_notified_price with
    | none => .error ()
    | some lnp =>
      match r.last_depart with
      | none => .error ()
      | some ld => .ok ⟨lp, lnp, r.last_notified_dir.getD none, ld⟩

/-- The process-wide configuration read from the environment:
`ALERT_MODE` (an arbitrary lower-cased string; the code compares it to
`"drop"`, `"rise"`, `"both"`) and `MIN_CHANGE_PCT`. -/
structure Config where
  alert_mode : String
  min_change_pct : ℚ

/-- ASCII `str.lower()` on one character. -/
def lowerChar (c : Char) : Char :=
  if 'A' ≤ c ∧ c ≤ 'Z' then Char.ofNat (c.toNat + 32) else c

/-- ASCII model of Python `str.lower()`. -/
def lowerStr (s : String) : String := ⟨s.toList.map lowerChar⟩

/-- `find_exact`: first candidate whose flight number equals
`flight_no` by exact string comparison. -/
def find_exact (flights : List Flight) (flight_no : String) : Option Flight :=
  flights.find? (fun f => f.flightNo == flight_no)

/-- The same-airline filter
`[f for f in flights if (f.get("airline") or "").lower() == airline.lower()]`. -/
def sameAirline (airline : String) (flights : List Flight) : List Flight :=
  flights.filter (fun f => lowerStr f.airline == lowerStr airline)

/-- One iteration of the best-delta loop in `find_fallback`: skip a
candidate whose `depart` fails to parse, otherwise keep it when its
absolute delta to the target is strictly smaller than the best so far
(so the first candidate achieving the minimum is retained). -/
def fallbackStep (parse : String → Option Int) (target : Int)
    (acc : Option (Flight × Int)) (f : Flight) : Option (Flight × Int) :=
  match parse f.depart with
  | none => acc
  | some dep =>
    let delta : Int := ((dep - target).natAbs : Int)
    match acc with
    | none => some (f, delta)
    | some (bf, bd) => if delta < bd then some (f, delta) else some (bf, bd)

/-- A Python-falsy optional string: `None` or `""`. -/
def optStrFalsy : Option String → Bool
  | none => true
  | some s => s == ""

/-- `find_fallback(flights, airline, last_depart_iso)`: same airline +
closest departure to `last_depart` within 15 minutes (900 seconds). -/
def find_fallback (parse : String → Option Int) (flights : List Flight)
    (airline : String) (last_depart_iso : Option String) : Option Flight :=
  if airline == "" || optStrFalsy last_depart_iso then none
  else
    match last_depart_iso with
    | none => none
    | some s =>
      match parse s with
      | none => none
      | some target =>
        let same_air := sameAirline airline flights
        if same_air.isEmpty then none
        else
          match same_air.foldl (fallbackStep parse target) none with
          | none => none
          | some (best, bd) => if bd ≤ 900 then some best else none

/-- The comparison step of Python's builtin `min` with a key: replace
the current best only on a strictly smaller key, so the first minimal
element wins ties. -/
def keepMin (key : Flight → Int) (b x : Flight) : Flight :=
  if key x < key b then x else b

/-- Python `min(l, key=key)` on a non-empty list (the source guards
emptiness before calling it). -/
def pymin (key : Flight → Int) : List Flight → Option Flight
  | [] => none
  | f :: fs => some (fs.foldl (keepMin key) f)

/-- The three-tier matcher of `check_once` (lines 206–215): exact match,
then airline+departure fallback, then auto-snap to the cheapest
same-airline candidate, the last only when `last_price` is unset and an
airline name is present. -/
def matchFlight (parse : String → Option Int) (flights : List Flight)
    (flight_no airline : String) (last_price : Option Int)
    (last_depart : Option String) : Option Flight :=
  match find_exact flights flight_no with
  | some f => some f
  | none =>
    match find_fallback parse flights airline last_depart with
    | some f => some f
    | none =>
      if last_price.isNone && !(airline == "") then
        let same := sameAirline airline flights
        if same.isEmpty then none else pymin (fun x => x.price) same
      else none

/-- `pct_move = 0.0 if last <= 0 else 100.0 * abs(price - last) / last`. -/
def pct_move (last price : Int) : ℚ :=
  if last ≤ 0 then 0 else 100 * ((price - last).natAbs : ℚ) / (last : ℚ)

/-- `direction = "drop" if price < last else ("rise" if price > last else "flat")`. -/
def direction (last price : Int) : String :=
  if price < last then "drop" else if price > last then "rise" else "flat"

/-- Lines 240–244: the `should_alert` computation, including the
de-duplication gate `(price != last_notified or last_dir != direction)`.
Python compares the int `price` with the optional `last_notified`
(`int != None` is true) and the optional `last_dir` with a string. -/
def shouldAlert (cfg : Config) (last price : Int)
    (lnp : Option Int) (ldir : Option String) : Bool :=
  if direction last price == "drop"
      && (cfg.alert_mode == "drop" || cfg.alert_mode == "both")
      && decide (cfg.min_change_pct ≤ pct_move last price) then
    decide (some price ≠ lnp) || decide (ldir ≠ some "drop")
  else if direction last price == "rise"
      && (cfg.alert_mode == "rise" || cfg.alert_mode == "both")
      && decide (cfg.min_change_pct ≤ pct_move last price) then
    decide (some price ≠ lnp) || decide (ldir ≠ some "rise")
  else false

/-- Result of the alert logic for one matched flight: the record written
to the store and whether a notification was emitted. -/
structure Outcome where
  record : Record
  alert : Bool
deriving DecidableEq, Repr

/-- Lines 226–271 of `check_once`: the alert state machine for one
matched candidate. First observation sets the baseline and clears the
notification fields without alerting; otherwise on alert the record
stores `price`/`price`/`direction`, on no alert only `last_price` and
`last_depart` are refreshed. -/
def processFound (cfg : Config) (prev : Record) (found : Flight) : Outcome :=
  match prev.last_price with
  | none => ⟨⟨some found.price, none, none, some found.depart⟩, false⟩
  | some last =>
    if shouldAlert cfg last found.price
        prev.last_notified_price prev.last_notified_dir then
      ⟨⟨some found.price, some found.price,
        some (direction last found.price), some found.depart⟩, true⟩
    else
      ⟨⟨some found.price, prev.last_notified_price,
        prev.last_notified_dir, some found.depart⟩, false⟩

/-- The price store `prices.json`: a JSON object modelled as an
association list from tracking keys to raw records. -/
abbrev Store := List (String × RawRecord)

/-- `store.get(k)` (before applying the default). -/
def storeGet (s : Store) (k : String) : Option RawRecord :=
  (s.find? (fun p => p.1 == k)).map (·.2)

/-- Dictionary assignment `store[k] = v`. -/
def storeSet : Store → String → RawRecord → Store
  | [], k, v => [(k, v)]
  | p :: rest, k, v =>
    if p.1 == k then (k, v) :: rest else p :: storeSet rest k v

/-- A flight-level subscription entry (`load_selected_flights` ensures
`key` and `flightNo` are present; `airline` defaults to `""`). -/
structure Sub where
  key : String
  flightNo : String
  airline : String
deriving DecidableEq, Repr

/-- `price_key = f"{key}#{flight_no}"`. -/
def priceKey (sub : Sub) : String := sub.key ++ "#" ++ sub.flightNo

/-- Split a list at the first `'-'`. -/
def splitDash1 : List Char → Option (List Char × List Char)
  | [] => none
  | c :: cs =>
    if c = '-' then some ([], cs)
    else (splitDash1 cs).map (fun p => (c :: p.1, p.2))

/-- `origin,dest,date = key.split("-", 2)`: succeeds exactly when the key
has at least two dashes; the third component keeps any further dashes.
Failure raises `ValueError`, which `check_once` catches and turns into a
skip. -/
def splitKey3 (s : String) : Option (String × String × String) :=
  match splitDash1 s.toList with
  | none => none
  | some (a, rest) =>
    match splitDash1 rest with
    | none => none
    | some (b, c) => some (⟨a⟩, ⟨b⟩, ⟨c⟩)

/-- The raw record the cycle reads for a subscription:
`store.get(price_key, {"last_price":None, "last_notified_price":None,
"last_notified_dir":None, "last_depart":None})`. -/
def rawFor (store : Store) (sub : Sub) : RawRecord :=
  (storeGet store (priceKey sub)).getD Record.empty.toRaw

/-- The body of the per-subscription loop of `check_once` for one
subscription and the candidate list fetched for its route: returns the
updated store and this iteration's contribution to the `changed` flag,
or the uncaught exception (`KeyError` from `readPrev`). A malformed key
or an unmatched flight leaves the store untouched and contributes
`changed = false`. -/
def processSub (parse : String → Option Int) (cfg : Config) (store : Store)
    (sub : Sub) (flights : List Flight) : Except Unit (Store × Bool) :=
  match splitKey3 sub.key with
  | none => .ok (store, false)
  | some _ =>
    match readPrev (rawFor store sub) with
    | .error e => .error e
    | .ok prev =>
      match matchFlight parse flights sub.flightNo sub.airline
          prev.last_price prev.last_depart with
      | none => .ok (store, false)
      | some found =>
        let out := processFound cfg prev found
        .ok (storeSet store (priceKey sub) out.record.toRaw, true)

/-- The subscription loop of `check_once`, threading the store and the
`changed` flag. -/
def cycleAux (parse : String → Option Int) (cfg : Config) :
    Store → Bool → List (Sub × List Flight) → Except Unit (Store × Bool)
  | store, changed, [] => .ok (store, changed)
  | store, changed, (sub, flights) :: rest =>
    match processSub parse cfg store sub flights with
    | .error e => .error e
    | .ok (st, ch) => cycleAux parse cfg st (changed || ch) rest

/-- One full `check_once` cycle over the given subscriptions, each paired
with the candidate list the flight source returns for its route. The
resulting boolean is the final `changed` flag: `set_store` is called at
cycle end iff it is `true`. -/
def runCycle (parse : String → Option Int) (cfg : Config) (store : Store)
    (subs : List (Sub × List Flight)) : Except Unit (Store × Bool) :=
  cycleAux parse cfg store false subs

/-- `n` consecutive monitoring cycles against a stable flight source. -/
def runCycles (parse : String → Option Int) (cfg : Config) :
    Nat → Store → List (Sub × List Flight) → Except Unit Store
  | 0, store, _ => .ok store
  | n + 1, store, subs =>
    match runCycle parse cfg store subs with
    | .error e => .error e
    | .ok (st, _) => runCycles parse cfg n st subs

/-- The mode gate of lines 241 and 243: whether the direction of a move
is enabled by the configured alert mode. -/
def dirEnabled (mode dir : String) : Bool :=
  (dir == "drop" && (mode == "drop" || mode == "both")) ||
  (dir == "rise" && (mode == "rise" || mode == "both"))

/-- The first element of a list attaining the global minimum of `key`:
the first candidate whose key is less than or equal to every key in the
list. Used to state the tie-breaking behaviour of the fallback and
auto-snap selections. -/
def firstMin (key : Flight → Int) (l : List Flight) : Option Flight :=
  l.find? (fun f => l.all (fun g => decide (key f ≤ key g)))

/-- The fallback comparison key of a candidate: the absolute difference
in seconds between its (parsed) departure and the target departure. -/
def fkey (parse : String → Option Int) (target : Int) (f : Flight) : Int :=
  (((parse f.depart).getD 0) - target).natAbs

/-- The fallback tier as worded by the specification: restrict the
candidates to those with a case-insensitively equal airline, select the
first candidate minimizing the absolute departure-time delta from the
stored departure, and return it only when that minimum delta is at most
900 seconds. -/
def find_fallback_spec (parse : String → Option Int) (flights : List Flight)
    (airline : String) (target : Int) : Option Flight :=
  match firstMin (fkey parse target) (sameAirline airline flights) with
  | none => none
  | some f => if fkey parse target f ≤ 900 then some f else none

/-- A small concrete timestamp parser used to instantiate witnesses. -/
def parseDemo : String → Option Int := fun s =>
  if s == "a" then some 0 else if s == "b" then some 600 else none

/-- Concrete cycle input: a subscription whose flight is matched exactly
at an unchanged price and departure. -/
def c8sub : Sub := ⟨"DEL-BLR-2025-08-25", "6E200", "IndiGo"⟩

/-- The tracking record already stored for `c8sub`. -/
def c8rec : Record := ⟨some 5000, none, none, some "T1"⟩

/-- The store before (and, in value, after) the `c8sub` cycle. -/
def c8store : Store := [(priceKey c8sub, c8rec.toRaw)]

/-- The candidate list for the `c8sub` cycle: the same flight at the
same price and departure as the stored record. -/
def c8flights : List Flight := [⟨"IndiGo", "6E200", "T1", 5000⟩]

/-- A stored dictionary missing the `last_price` key (the other keys
present with JSON `null` values). -/
def c9raw : RawRecord := ⟨none, some none, some none, some none⟩

/-- Concrete subscription whose stored record is `c9raw`. -/
def c9sub : Sub := ⟨"BOM-GOI-2025-09-01", "AI101", "Air India"⟩

/-- The store holding the malformed record for `c9sub`. -/
def c9store : Store := [(priceKey c9sub, c9raw)]

/-- Candidate list for the `c9sub` cycle. -/
def c9flights : List Flight := [⟨"Air India", "AI101", "T2", 4000⟩]

/-! ## Helper lemmas -/

/-- `List.find?` only depends on the values of the predicate on the
list's elements. -/
theorem findCongr (p q : Flight → Bool) (l : List Flight)
    (h : ∀ a ∈ l, p a = q a) : l.find? p = l.find? q := by
  induction l with
  | nil => rfl
  | cons x xs ih =>
    by_cases hq : q x = true
    · rw [List.find?_cons_of_pos _ (by rw [h x (by simp)]; exact hq),
        List.find?_cons_of_pos _ hq]
    · rw [List.find?_cons_of_neg _ (by rw [h x (by simp)]; exact hq),
        List.find?_cons_of_neg _ hq]
      exact ih fun a ha => h a (by simp [ha])

/-- Absorbing the first comparison of Python's `min` into the list:
the first minimum of `f :: x :: rest` is the first minimum of
`keepMin f x :: rest`. -/
theorem firstMin_cons (key : Flight → Int) (f x : Flight) (rest : List Flight) :
    firstMin key (f :: x :: rest) = firstMin key (keepMin key f x :: rest) := by
  unfold firstMin keepMin
  by_cases hxf : key x < key f
  · simp only [if_pos hxf]
    rw [List.find?_cons_of_neg _ (by simp; intro h; exact absurd h (not_le.mpr hxf))]
    apply findCongr
    intro c _
    simp only [List.all_cons]
    by_cases hc : key c ≤ key x
    · have : key c ≤ key f := le_trans hc (le_of_lt hxf)
      simp [hc, this]
    · simp [hc]
  · have hfx : key f ≤ key x := le_of_not_lt hxf
    simp only [if_neg hxf]
    by_cases hA : rest.all (fun g => decide (key f ≤ key g)) = true
    · rw [List.find?_cons_of_pos _ (by simp [hA, hfx]),
        List.find?_cons_of_pos _ (by simp [hA])]
    · rw [List.find?_cons_of_neg _ (by simp [hfx]; simpa using hA)]
      rw [List.find?_cons_of_neg _ ?hx]
      case hx =>
        simp only [List.all_cons]
        by_cases hc : key x ≤ key f
        · have hxe : key x = key f := le_antisymm hc hfx
          simp only [hxe]
          simp
          simpa using hA
        · simp [hc]
      rw [List.find?_cons_of_neg _ (by simp; simpa using hA)]
      apply findCongr
      intro c _
      simp only [List.all_cons]
      by_cases hc : key c ≤ key f
      · have : key c ≤ key x := le_trans hc hfx
        simp [hc, this]
      · simp [hc]

/-- Python's `min` with a key returns the first element attaining the
global minimum of the key. -/
theorem pymin_eq_firstMin (key : Flight → Int) : ∀ l : List Flight,
    pymin key l = firstMin key l
  | [] => rfl
  | f :: fs => by
    induction fs generalizing f with
    | nil => simp [pymin, firstMin]
    | cons x rest ih =>
      calc pymin key (f :: x :: rest)
          = pymin key (keepMin key f x :: rest) := by simp [pymin]
        _ = firstMin key (keepMin key f x :: rest) := ih _
        _ = firstMin key (f :: x :: rest) := (firstMin_cons key f x rest).symm

/-- When every departure in the list parses, the best-delta loop of
`find_fallback` computes Python's `min` by delta, paired with its
delta. -/
theorem foldl_fallbackStep_some (parse : String → Option Int) (target : Int)
    (l : List Flight) (h : ∀ f ∈ l, (parse f.depart).isSome = true) (b : Flight) :
    l.foldl (fallbackStep parse target) (some (b, fkey parse target b)) =
      some (l.foldl (keepMin (fkey parse target)) b,
        fkey parse target (l.foldl (keepMin (fkey parse target)) b)) := by
  induction l generalizing b with
  | nil => rfl
  | cons x xs ih =>
    have hx : (parse x.depart).isSome = true := h x (by simp)
    obtain ⟨dep, hdep⟩ := Option.isSome_iff_exists.mp hx
    have hstep : fallbackStep parse target (some (b, fkey parse target b)) x =
        some (keepMin (fkey parse target) b x,
          fkey parse target (keepMin (fkey parse target) b x)) := by
      have hk : ((dep - target).natAbs : Int) = fkey parse target x := by
        simp [fkey, hdep]
      simp only [fallbackStep, hdep, keepMin, hk]
      by_cases hlt : fkey parse target x < fkey parse target b
      · simp [hlt]
      · simp [hlt]
    simp only [List.foldl_cons, hstep]
    exact ih (fun f hf => h f (by simp [hf])) _

/-- Candidates whose departure fails to parse are invisible to the
best-delta loop. -/
theorem foldl_fallbackStep_filter (parse : String → Option Int) (target : Int)
    (l : List Flight) (acc : Option (Flight × Int)) :
    l.foldl (fallbackStep parse target) acc =
      (l.filter (fun f => (parse f.depart).isSome)).foldl
        (fallbackStep parse target) acc := by
  induction l generalizing acc with
  | nil => rfl
  | cons x xs ih =>
    cases hdep : parse x.depart with
    | none =>
      have hskip : fallbackStep parse target acc x = acc := by
        simp [fallbackStep, hdep]
      simp [List.foldl_cons, List.filter_cons, hdep, hskip, ih]
    | some dep =>
      simp [List.foldl_cons, List.filter_cons, hdep, ih]

/-- Two list filters commute. -/
theorem filter_comm' (p q : Flight → Bool) (l : List Flight) :
    (l.filter p).filter q = (l.filter q).filter p := by
  induction l with
  | nil => rfl
  | cons x xs ih =>
    by_cases hp : p x <;> by_cases hq : q x <;>
      simp [List.filter_cons, hp, hq, ih]

/-- With a baseline present, the emitted-alert bit of the per-flight
outcome is exactly `should_alert`. -/
theorem processFound_alert (cfg : Config) (prev : Record) (found : Flight)
    (last : Int) (hl : prev.last_price = some last) :
    (processFound cfg prev found).alert =
      shouldAlert cfg last found.price
        prev.last_notified_price prev.last_notified_dir := by
  cases h : shouldAlert cfg last found.price
      prev.last_notified_price prev.last_notified_dir <;>
    simp [processFound, hl, h]

/-- When an alert fires, the written record stores the new price as both
baseline and notified price, and the move's direction. -/
theorem processFound_record_of_alert (cfg : Config) (prev : Record)
    (found : Flight) (last : Int) (hl : prev.last_price = some last)
    (ha : (processFound cfg prev found).alert = true) :
    (processFound cfg prev found).record =
      ⟨some found.price, some found.price,
        some (direction last found.price), some found.depart⟩ := by
  by_cases h : shouldAlert cfg last found.price
      prev.last_notified_price prev.last_notified_dir = true
  · simp [processFound, hl, h]
  · rw [processFound_alert cfg prev found last hl] at ha
    exact absurd ha h

/-! ## Claim theorems -/

/-- C1: for a matched flight with a baseline whose price move is a
candidate alert (direction enabled by the alert mode and percentage move
at least the threshold), the alert fires iff the new price differs from
the stored `last_notified_price` or the new direction differs from the
stored `last_notified_dir`; when it fires, those two fields are set to
the new price and direction. -/
theorem alert_dedupe_gate (cfg : Config) (prev : Record) (found : Flight)
    (last : Int) (hl : prev.last_price = some last)
    (hen : dirEnabled cfg.alert_mode (direction last found.price) = true)
    (hth : cfg.min_change_pct ≤ pct_move last found.price) :
    ((processFound cfg prev found).alert = true ↔
      (some found.price ≠ prev.last_notified_price ∨
        prev.last_notified_dir ≠ some (direction last found.price))) ∧
    ((processFound cfg prev found).alert = true →
      (processFound cfg prev found).record.last_notified_price =
          some found.price ∧
        (processFound cfg prev found).record.last_notified_dir =
          some (direction last found.price)) := by
  have halert := processFound_alert cfg prev found last hl
  rcases lt_trichotomy found.price last with h | h | h
  · have hd : direction last found.price = "drop" := by simp [direction, h]
    rw [hd] at hen
    have hmode : (cfg.alert_mode == "drop" || cfg.alert_mode == "both") = true := by
      simpa [dirEnabled] using hen
    have hsa : shouldAlert cfg last found.price
        prev.last_notified_price prev.last_notified_dir =
        (decide (some found.price ≠ prev.last_notified_price) ||
          decide (prev.last_notified_dir ≠ some "drop")) := by
      simp [shouldAlert, hd, hmode, hth]
    refine ⟨?_, ?_⟩
    · rw [halert, hsa, hd]
      simp
    · intro ha
      rw [processFound_record_of_alert cfg prev found last hl ha]
      exact ⟨rfl, rfl⟩
  · have hd : direction last found.price = "flat" := by simp [direction, h]
    rw [hd] at hen
    simp [dirEnabled] at hen
  · have h1 : ¬(found.price < last) := not_lt.mpr (le_of_lt h)
    have hd : direction last found.price = "rise" := by simp [direction, h, h1]
    rw [hd] at hen
    have hmode : (cfg.alert_mode == "rise" || cfg.alert_mode == "both") = true := by
      simpa [dirEnabled] using hen
    have hsa : shouldAlert cfg last found.price
        prev.last_notified_price prev.last_notified_dir =
        (decide (some found.price ≠ prev.last_notified_price) ||
          decide (prev.last_notified_dir ≠ some "rise")) := by
      simp [shouldAlert, hd, hmode, hth]
    refine ⟨?_, ?_⟩
    · rw [halert, hsa, hd]
      simp
    · intro ha
      rw [processFound_record_of_alert cfg prev found last hl ha]
      exact ⟨rfl, rfl⟩

/-- Witness for C1: baseline 5000, new price 4900, mode `drop`,
threshold 1%: a 2% drop with empty notification history. -/
theorem alert_dedupe_gate_witness :
    (((processFound ⟨"drop", 1⟩ ⟨some 5000, none, none, none⟩
        ⟨"IndiGo", "6E200", "T", 4900⟩).alert = true ↔
      (some (4900 : Int) ≠ (none : Option Int) ∨
        (none : Option String) ≠ some (direction 5000 4900))) ∧
    ((processFound ⟨"drop", 1⟩ ⟨some 5000, none, none, none⟩
        ⟨"IndiGo", "6E200", "T", 4900⟩).alert = true →
      (processFound ⟨"drop", 1⟩ ⟨some 5000, none, none, none⟩
          ⟨"IndiGo", "6E200", "T", 4900⟩).record.last_notified_price =
        some (4900 : Int) ∧
      (processFound ⟨"drop", 1⟩ ⟨some 5000, none, none, none⟩
          ⟨"IndiGo", "6E200", "T", 4900⟩).record.last_notified_dir =
        some (direction 5000 4900))) :=
  alert_dedupe_gate ⟨"drop", 1⟩ ⟨some 5000, none, none, none⟩
    ⟨"IndiGo", "6E200", "T", 4900⟩ 5000 rfl (by decide)
    (by norm_num [pct_move])

/-- C2: on a successful match with no baseline, the cycle does not
alert, records the observed price as the baseline, and clears both
notification fields. -/
theorem first_observation_no_alert (cfg : Config) (prev : Record)
    (found : Flight) (hl : prev.last_price = none) :
    processFound cfg prev found =
      ⟨⟨some found.price, none, none, some found.depart⟩, false⟩ := by
  simp [processFound, hl]

/-- Witness for C2: stale notification fields are cleared and no alert
fires on the first observation. -/
theorem first_observation_no_alert_witness :
    processFound ⟨"both", 1⟩ ⟨none, some 3, some "drop", some "x"⟩
        ⟨"Akasa", "QP700", "d", 777⟩ =
      ⟨⟨some 777, none, none, some "d"⟩, false⟩ :=
  first_observation_no_alert ⟨"both", 1⟩ ⟨none, some 3, some "drop", some "x"⟩
    ⟨"Akasa", "QP700", "d", 777⟩ rfl

/-- C3: a flat move (current price equals the baseline) never alerts,
for every alert mode in {drop, rise, both} and every non-negative
threshold, including 0. -/
theorem flat_never_alerts (cfg : Config) (prev : Record) (found : Flight)
    (last : Int) (hl : prev.last_price = some last)
    (heq : found.price = last)
    (_hmode : cfg.alert_mode = "drop" ∨ cfg.alert_mode = "rise" ∨
      cfg.alert_mode = "both")
    (_hth : 0 ≤ cfg.min_change_pct) :
    (processFound cfg prev found).alert = false := by
  rw [processFound_alert cfg prev found last hl]
  have hd : direction last found.price = "flat" := by simp [direction, heq]
  simp [shouldAlert, hd]

/-- Witness for C3: mode `both`, threshold 0, unchanged price 4000. -/
theorem flat_never_alerts_witness :
    (processFound ⟨"both", 0⟩ ⟨some 4000, some 4000, some "drop", none⟩
      ⟨"SpiceJet", "SG1", "d", 4000⟩).alert = false :=
  flat_never_alerts ⟨"both", 0⟩ ⟨some 4000, some 4000, some "drop", none⟩
    ⟨"SpiceJet", "SG1", "d", 4000⟩ 4000 rfl rfl
    (Or.inr (Or.inr rfl)) le_rfl

/-- C4: a move in the direction disabled by the alert mode (a rise under
mode `drop`, or a drop under mode `rise`) never alerts, whatever the
percentage move. -/
theorem disabled_direction_never_alerts (cfg : Config) (prev : Record)
    (found : Flight) (last : Int) (hl : prev.last_price = some last)
    (hdis : (direction last found.price = "rise" ∧ cfg.alert_mode = "drop") ∨
      (direction last found.price = "drop" ∧ cfg.alert_mode = "rise")) :
    (processFound cfg prev found).alert = false := by
  rw [processFound_alert cfg prev found last hl]
  rcases hdis with ⟨hd, hm⟩ | ⟨hd, hm⟩ <;> simp [shouldAlert, hd, hm]

/-- Witness for C4: a 900% rise under mode `drop` stays silent. -/
theorem disabled_direction_never_alerts_witness :
    (processFound ⟨"drop", 1⟩ ⟨some 100, none, none, none⟩
      ⟨"IndiGo", "6E1", "d", 1000⟩).alert = false :=
  disabled_direction_never_alerts ⟨"drop", 1⟩ ⟨some 100, none, none, none⟩
    ⟨"IndiGo", "6E1", "d", 1000⟩ 100 rfl (Or.inl ⟨rfl, rfl⟩)

/-- C5: when an airline and a parseable stored departure are available
and every same-airline candidate's departure parses, the fallback tier
computes exactly the specified selection: restrict to case-insensitive
airline matches, pick the first candidate minimizing the absolute
departure delta, and accept only when that minimum is at most 900
seconds. -/
theorem fallback_matches_spec (parse : String → Option Int)
    (flights : List Flight) (airline s : String) (target : Int)
    (hair : airline ≠ "") (hs : s ≠ "") (hp : parse s = some target)
    (hall : ∀ f ∈ sameAirline airline flights, (parse f.depart).isSome = true) :
    find_fallback parse flights airline (some s) =
      find_fallback_spec parse flights airline target := by
  have h1 : (airline == "") = false := by simp [hair]
  have h2 : optStrFalsy (some s) = false := by simp [optStrFalsy, hs]
  simp only [find_fallback, h1, h2, Bool.or_self, if_false, hp]
  cases hsm : sameAirline airline flights with
  | nil => simp [find_fallback_spec, hsm, firstMin]
  | cons f fs =>
    have hf : (parse f.depart).isSome = true := hall f (by rw [hsm]; simp)
    obtain ⟨dep, hdep⟩ := Option.isSome_iff_exists.mp hf
    have hstep : fallbackStep parse target none f =
        some (f, fkey parse target f) := by
      simp [fallbackStep, hdep, fkey]
    have hfold : (f :: fs).foldl (fallbackStep parse target) none =
        some (fs.foldl (keepMin (fkey parse target)) f,
          fkey parse target (fs.foldl (keepMin (fkey parse target)) f)) := by
      rw [List.foldl_cons, hstep]
      exact foldl_fallbackStep_some parse target fs
        (fun g hg => hall g (by rw [hsm]; simp [hg])) f
    have hmin : some (fs.foldl (keepMin (fkey parse target)) f) =
        firstMin (fkey parse target) (f :: fs) :=
      pymin_eq_firstMin (fkey parse target) (f :: fs)
    simp only [find_fallback_spec, hsm, List.isEmpty_cons, if_false, hfold,
      ← hmin]
    simp

/-- Witness for C5: two same-airline candidates, deltas 600 and 0; the
zero-delta candidate is selected by both the code and the specified
selection. -/
theorem fallback_matches_spec_witness :
    find_fallback parseDemo
        [⟨"IndiGo", "X1", "b", 100⟩, ⟨"indigo", "X2", "a", 90⟩]
        "INDIGO" (some "a") =
      find_fallback_spec parseDemo
        [⟨"IndiGo", "X1", "b", 100⟩, ⟨"indigo", "X2", "a", 90⟩]
        "INDIGO" 0 :=
  fallback_matches_spec parseDemo
    [⟨"IndiGo", "X1", "b", 100⟩, ⟨"indigo", "X2", "a", 90⟩]
    "INDIGO" "a" 0 (by decide) (by decide) rfl (by decide)

/-- C6: the auto-snap tier is consulted only when the exact and fallback
tiers fail, the flight has no baseline, and an airline name is present;
it then selects the first same-airline candidate of globally minimum
price. Once a baseline exists, the matcher is exactly exact-then-
fallback and auto-snap never selects a candidate. -/
theorem auto_snap_first_observation_only (parse : String → Option Int)
    (flights : List Flight) (flight_no airline : String)
    (last_price : Option Int) (last_depart : Option String) :
    (last_price = none → airline ≠ "" →
      find_exact flights flight_no = none →
      find_fallback parse flights airline last_depart = none →
      matchFlight parse flights flight_no airline last_price last_depart =
        firstMin (fun f => f.price) (sameAirline airline flights)) ∧
    (last_price ≠ none →
      matchFlight parse flights flight_no airline last_price last_depart =
        match find_exact flights flight_no with
        | some f => some f
        | none => find_fallback parse flights airline last_depart) ∧
    (airline = "" →
      matchFlight parse flights flight_no airline last_price last_depart =
        match find_exact flights flight_no with
        | some f => some f
        | none => find_fallback parse flights airline last_depart) := by
  refine ⟨?_, ?_, ?_⟩
  · intro hlp hair hex hfb
    have hcond : (last_price.isNone && !(airline == "")) = true := by
      simp [hlp, hair]
    simp only [matchFlight, hex, hfb, hcond, if_true]
    cases hsm : sameAirline airline flights with
    | nil => simp [firstMin]
    | cons f fs => simp [pymin_eq_firstMin]
  · intro hlp
    have hcond : last_price.isNone = false := by
      cases last_price with
      | none => exact absurd rfl hlp
      | some v => rfl
    cases hex : find_exact flights flight_no with
    | some f => simp [matchFlight, hex]
    | none =>
      cases hfb : find_fallback parse flights airline last_depart with
      | some g => simp [matchFlight, hex, hfb]
      | none => simp [matchFlight, hex, hfb, hcond]
  · intro hair
    cases hex : find_exact flights flight_no with
    | some f => simp [matchFlight, hex]
    | none =>
      cases hfb : find_fallback parse flights airline last_depart with
      | some g => simp [matchFlight, hex, hfb]
      | none =>
        subst hair
        simp [matchFlight, hex, hfb]

/-- Witness for C6: no exact match, no stored departure (so no
fallback), no baseline, airline present: the matcher snaps to the first
cheapest same-airline candidate. -/
theorem auto_snap_first_observation_only_witness :
    matchFlight parseDemo
        [⟨"IndiGo", "X9", "a", 100⟩, ⟨"indigo", "Y1", "zz", 90⟩,
          ⟨"IndiGo", "Y2", "b", 90⟩]
        "6E200" "INDIGO" none none =
      firstMin (fun f => f.price)
        (sameAirline "INDIGO"
          [⟨"IndiGo", "X9", "a", 100⟩, ⟨"indigo", "Y1", "zz", 90⟩,
            ⟨"IndiGo", "Y2", "b", 90⟩]) :=
  (auto_snap_first_observation_only parseDemo
      [⟨"IndiGo", "X9", "a", 100⟩, ⟨"indigo", "Y1", "zz", 90⟩,
        ⟨"IndiGo", "Y2", "b", 90⟩]
      "6E200" "INDIGO" none none).1 rfl (by decide) rfl rfl

/-- C7: a cycle in which no matcher tier yields a candidate leaves the
flight's tracking record untouched, and this persists over any number
of consecutive unmatched cycles. -/
theorem unmatched_cycle_preserves_record (parse : String → Option Int)
    (cfg : Config) (store : Store) (sub : Sub) (flights : List Flight)
    (prev : Record) (n : Nat)
    (hr : readPrev (rawFor store sub) = .ok prev)
    (hm : matchFlight parse flights sub.flightNo sub.airline
      prev.last_price prev.last_depart = none) :
    runCycle parse cfg store [(sub, flights)] = .ok (store, false) ∧
    runCycles parse cfg n store [(sub, flights)] = .ok store := by
  have hsub : processSub parse cfg store sub flights = .ok (store, false) := by
    unfold processSub
    cases hk : splitKey3 sub.key with
    | none => rfl
    | some t => simp [hr, hm]
  have hcyc : runCycle parse cfg store [(sub, flights)] = .ok (store, false) := by
    simp [runCycle, cycleAux, hsub]
  refine ⟨hcyc, ?_⟩
  induction n with
  | zero => rfl
  | succ k ih =>
    simp only [runCycles, hcyc]
    exact ih

/-- Witness for C7: a stored record with a baseline, an unmatchable
candidate list (wrong flight number, unparseable stored departure,
baseline already set): three consecutive cycles leave the store
byte-for-byte identical. -/
theorem unmatched_cycle_preserves_record_witness :
    runCycle parseDemo ⟨"drop", 1⟩
        [("AAA-BBB-2025-01-01#X1",
          (⟨some 5000, none, none, some "zz"⟩ : Record).toRaw)]
        [(⟨"AAA-BBB-2025-01-01", "X1", "IndiGo"⟩,
          [⟨"IndiGo", "X2", "zz", 100⟩])] =
      .ok ([("AAA-BBB-2025-01-01#X1",
        (⟨some 5000, none, none, some "zz"⟩ : Record).toRaw)], false) ∧
    runCycles parseDemo ⟨"drop", 1⟩ 3
        [("AAA-BBB-2025-01-01#X1",
          (⟨some 5000, none, none, some "zz"⟩ : Record).toRaw)]
        [(⟨"AAA-BBB-2025-01-01", "X1", "IndiGo"⟩,
          [⟨"IndiGo", "X2", "zz", 100⟩])] =
      .ok [("AAA-BBB-2025-01-01#X1",
        (⟨some 5000, none, none, some "zz"⟩ : Record).toRaw)] :=
  unmatched_cycle_preserves_record parseDemo ⟨"drop", 1⟩
    [("AAA-BBB-2025-01-01#X1",
      (⟨some 5000, none, none, some "zz"⟩ : Record).toRaw)]
    ⟨"AAA-BBB-2025-01-01", "X1", "IndiGo"⟩
    [⟨"IndiGo", "X2", "zz", 100⟩]
    ⟨some 5000, none, none, some "zz"⟩ 3 rfl rfl

/-- Counterexample to C8: a cycle whose only flight matches exactly at
an unchanged price and departure. The record written back equals the
stored one — no tracking record changed value — yet the cycle's
`changed` flag is `true`, so `set_store` runs. -/
theorem store_written_without_value_change :
    rawFor c8store c8sub = c8rec.toRaw ∧
    runCycle (fun _ => none) ⟨"drop", 1⟩ c8store [(c8sub, c8flights)] =
      .ok (c8store, true) :=
  ⟨rfl, rfl⟩

/-- C8 amended: for a single-subscription cycle with a readable stored
record, the store is written back iff the subscription's key is
well-formed and some matcher tier yields a candidate — every successful
match sets the `changed` flag, whether or not the written record differs
in value from the stored one. -/
theorem store_write_iff_match (parse : String → Option Int) (cfg : Config)
    (store : Store) (sub : Sub) (flights : List Flight) (prev : Record)
    (hr : readPrev (rawFor store sub) = .ok prev) :
    (runCycle parse cfg store [(sub, flights)]).map (fun p => p.2) =
      .ok ((splitKey3 sub.key).isSome &&
        (matchFlight parse flights sub.flightNo sub.airline
          prev.last_price prev.last_depart).isSome) := by
  unfold runCycle cycleAux processSub
  cases hk : splitKey3 sub.key with
  | none => simp [cycleAux, Except.map]
  | some t =>
    simp only [hr]
    cases hm : matchFlight parse flights sub.flightNo sub.airline
        prev.last_price prev.last_depart with
    | none => simp [cycleAux, Except.map]
    | some found => simp [cycleAux, Except.map]

/-- Witness for C8 amended: an unchanged-price match still reports a
store write. -/
theorem store_write_iff_match_witness :
    (runCycle (fun _ => none) ⟨"drop", 1⟩ c8store
        [(c8sub, c8flights)]).map (fun p => p.2) =
      .ok ((splitKey3 c8sub.key).isSome &&
        (matchFlight (fun _ => none) c8flights c8sub.flightNo c8sub.airline
          (some 5000) (some "T1")).isSome) :=
  store_write_iff_match (fun _ => none) ⟨"drop", 1⟩ c8store c8sub c8flights
    ⟨some 5000, none, none, some "T1"⟩ rfl

/-- Counterexample to C9: a stored dictionary missing the `last_price`
key makes `prev["last_price"]` raise `KeyError`, which `check_once` does
not catch: the record is not treated as absent and the whole cycle
aborts instead of completing. -/
theorem malformed_record_crashes_cycle :
    readPrev c9raw = .error () ∧
    runCycle (fun _ => none) ⟨"drop", 1⟩ c9store [(c9sub, c9flights)] =
      .error () :=
  ⟨rfl, rfl⟩

/-- C9 amended: only a missing `last_notified_dir` key is tolerated when
reading a stored record (it is read with `.get` and treated as absent);
a stored dictionary missing `last_price`, `last_notified_price` or
`last_depart` raises `KeyError` and aborts the cycle, and only a wholly
absent record triggers the first-observation path. -/
theorem readPrev_partial_tolerance (r : RawRecord) :
    (r.last_price = none → readPrev r = .error ()) ∧
    (∀ lp, r.last_price = some lp → r.last_notified_price = none →
      readPrev r = .error ()) ∧
    (∀ lp lnp, r.last_price = some lp → r.last_notified_price = some lnp →
      r.last_depart = none → readPrev r = .error ()) ∧
    (∀ lp lnp ld, r.last_price = some lp → r.last_notified_price = some lnp →
      r.last_depart = some ld →
      readPrev r = .ok ⟨lp, lnp, r.last_notified_dir.getD none, ld⟩) := by
  refine ⟨?_, ?_, ?_, ?_⟩ <;> intros <;> simp [readPrev, *]

/-- Witness for C9 amended: a record with every key except
`last_notified_dir` is read successfully with that field absent. -/
theorem readPrev_partial_tolerance_witness :
    readPrev ⟨some (some 5), some none, none, some (some "d")⟩ =
      .ok ⟨some 5, none, none, some "d"⟩ :=
  (readPrev_partial_tolerance
      ⟨some (some 5), some none, none, some (some "d")⟩).2.2.2
    (some 5) none (some "d") rfl rfl rfl

/-- C10: fallback matching is total on malformed timestamps: candidates
whose departure does not parse are invisible to the selection, and an
unparseable stored departure yields no match instead of an error. -/
theorem fallback_total_on_malformed_timestamps (parse : String → Option Int)
    (flights : List Flight) (airline : String) (ld : Option String) :
    find_fallback parse flights airline ld =
      find_fallback parse (flights.filter (fun f => (parse f.depart).isSome))
        airline ld ∧
    (∀ s, ld = some s → parse s = none →
      find_fallback parse flights airline ld = none) := by
  constructor
  · by_cases hg : (airline == "" || optStrFalsy ld) = true
    · simp [find_fallback, hg]
    · have hg' : (airline == "" || optStrFalsy ld) = false := by
        simpa using hg
      cases ld with
      | none => simp [optStrFalsy] at hg'
      | some s =>
        cases hp : parse s with
        | none => simp [find_fallback, hg', hp]
        | some target =>
          have hsa : sameAirline airline
              (flights.filter (fun f => (parse f.depart).isSome)) =
              (sameAirline airline flights).filter
                (fun f => (parse f.depart).isSome) := by
            simpa [sameAirline] using
              filter_comm' (fun f => (parse f.depart).isSome)
                (fun f => lowerStr f.airline == lowerStr airline) flights
          simp only [find_fallback, hg', if_false, hp, hsa,
            foldl_fallbackStep_filter parse target
              (sameAirline airline flights) none]
          cases h2 : (sameAirline airline flights).filter
              (fun f => (parse f.depart).isSome) with
          | nil =>
            cases h1 : sameAirline airline flights with
            | nil => simp
            | cons f fs => simp
          | cons g gs =>
            have h1 : sameAirline airline flights ≠ [] := by
              intro h
              rw [h] at h2
              simp at h2
            cases h1' : sameAirline airline flights with
            | nil => exact absurd h1' h1
            | cons f fs => simp
  · intro s hld hp
    subst hld
    by_cases hg : (airline == "" || optStrFalsy (some s)) = true
    · simp [find_fallback, hg]
    · have hg' : (airline == "" || optStrFalsy (some s)) = false := by
        simpa using hg
      simp [find_fallback, hg', hp]

/-- Witness for C10: one parseable and one unparseable candidate; the
filtered and unfiltered fallback agree, and an unparseable stored
departure yields no match. -/
theorem fallback_total_on_malformed_timestamps_witness :
    (find_fallback parseDemo
        [⟨"IndiGo", "X1", "zz", 100⟩, ⟨"IndiGo", "X2", "a", 90⟩]
        "IndiGo" (some "zz") =
      find_fallback parseDemo
        ([⟨"IndiGo", "X1", "zz", 100⟩, ⟨"IndiGo", "X2", "a", 90⟩].filter
          (fun f => (parseDemo f.depart).isSome))
        "IndiGo" (some "zz")) ∧
    find_fallback parseDemo
        [⟨"IndiGo", "X1", "zz", 100⟩, ⟨"IndiGo", "X2", "a", 90⟩]
        "IndiGo" (some "zz") = none :=
  ⟨(fallback_total_on_malformed_timestamps parseDemo
      [⟨"IndiGo", "X1", "zz", 100⟩, ⟨"IndiGo", "X2", "a", 90⟩]
      "IndiGo" (some "zz")).1,
    (fallback_total_on_malformed_timestamps parseDemo
      [⟨"IndiGo", "X1", "zz", 100⟩, ⟨"IndiGo", "X2", "a", 90⟩]
      "IndiGo" (some "zz")).2 "zz" rfl rfl⟩

end FlightMonitor
